import Mathlib

/-!
# Format dispatch and pipeline import handlers

A shallow embedding of `sdk/exportentities/common.go` and
`engine/api/pipeline_import.go`.

Go strings are modelled as lists of runes (`List Char`).  Go errors are
modelled by the inductive type `Error`; a Go `error` value that may be nil is
an `Option Error`.
-/

namespace Exportentities

/-- A Go string, seen as its sequence of runes. -/
abbrev GoString := List Char

/-- Modelled from the spec: the `Format` type and its constants are declared in
a file of the package that is not part of the excerpt; the spec gives the
enumeration JSON, YAML, Unknown. -/
inductive Format where
  | FormatJSON
  | FormatYAML
  | UnknownFormat
  deriving DecidableEq, Repr

open Format

/-- Go error values that occur in the package.  `ErrUnsupportedFormat` is the
package's sentinel, `external n` stands for an error produced by a collaborator
(decoder, encoder, file system, network), and `stacked e` is `e` with stack
context attached by `sdk.WithStack`. -/
inductive Error where
  | ErrUnsupportedFormat
  | external (n : Nat)
  | stacked (e : Error)
  deriving DecidableEq, Repr

/-- Modelled from the spec: `sdk.WithStack` lives in the `sdk` package, outside
the excerpt; it wraps a non-nil error with stack context and returns it, and
keeps nil as nil. -/
def WithStack : Option Error → Option Error
  | none => none
  | some e => some (Error.stacked e)

/-- The model of `unicode.IsSpace`: the Unicode White_Space runes. -/
def isSpace (c : Char) : Bool :=
  let n := c.toNat
  (9 ≤ n && n ≤ 13) || n == 32 || n == 0x85 || n == 0xA0 || n == 0x1680 ||
  (0x2000 ≤ n && n ≤ 0x200A) || n == 0x2028 || n == 0x2029 || n == 0x202F ||
  n == 0x205F || n == 0x3000

/-- The rune-wise lowering done by `strings.ToLower`: on the ASCII range the
letters A to Z are moved to a to z and nothing else changes; white space has no
case; every other rune is lowered by `lo`, the lower-case table of the Unicode
library above the ASCII range, which is taken as given. -/
def toLowerRune (lo : Char → Char) (c : Char) : Char :=
  if c.toNat < 128 then c.toLower else if isSpace c then c else lo c

/-- The model of `strings.ToLower`. -/
def ToLower (lo : Char → Char) (s : GoString) : GoString := s.map (toLowerRune lo)

/-- The rune-wise raising done by `strings.ToUpper`: on the ASCII range the
letters a to z are moved to A to Z and nothing else changes; the long s
(U+017F) is raised to S, as the Unicode table has it; every other rune is
raised by `up`, the upper-case table of the Unicode library above the ASCII
range, which is taken as given. -/
def toUpperRune (up : Char → Char) (c : Char) : Char :=
  if c.toNat < 128 then c.toUpper else if c.toNat = 0x17F then 'S' else up c

/-- The model of `strings.ToUpper`. -/
def ToUpper (up : Char → Char) (s : GoString) : GoString := s.map (toUpperRune up)

/-- Drops the trailing runes that satisfy `p`. -/
def trimRight (p : Char → Bool) (s : GoString) : GoString :=
  (s.reverse.dropWhile p).reverse

/-- The model of `strings.TrimSpace`: leading and trailing white space removed. -/
def TrimSpace (s : GoString) : GoString :=
  trimRight isSpace (s.dropWhile isSpace)

/-- The model of `strings.HasSuffix`. -/
def HasSuffix (s suffix : GoString) : Bool := suffix.isSuffixOf s

/-- GetFormatFromPath return a format. -/
def GetFormatFromPath (lo : Char → Char) (f : GoString) : Format × Option Error :=
  let s := ToLower lo f
  let s := TrimSpace s
  if s = "yaml".toList ∨ s = "yml".toList ∨ s = ".yaml".toList ∨ s = ".yml".toList then
    (FormatYAML, none)
  else if s = "json".toList ∨ s = ".json".toList then
    (FormatJSON, none)
  else
    (UnknownFormat, WithStack (some Error.ErrUnsupportedFormat))

/-- GetContentType returns the content type for a content type. -/
def GetContentType (f : Format) : GoString :=
  match f with
  | FormatYAML => "application/x-yaml".toList
  | FormatJSON => "application/json".toList
  | _ => "application/octet-stream".toList

/-- The bytes of a Go byte slice; the nil slice is the empty list. -/
abbrev Bytes := List Nat

/-- ReadFile reads the file and return the content, the format and eventually
an error.  `readFile` is the outcome of `ioutil.ReadFile` on the file system. -/
def ReadFile (readFile : GoString → Bytes × Option Error) (filename : GoString) :
    Bytes × Format × Option Error :=
  let format := if HasSuffix filename ".json".toList then FormatJSON else FormatYAML
  let r := readFile filename
  (r.1, format, r.2)

/-- The library decoders `json.Unmarshal`, `yaml.Unmarshal` and
`yaml.UnmarshalStrict`: from the input bytes and the destination's current
value to the destination's new value and the decoder's error. -/
structure Decoders (Dest : Type) where
  jsonUnmarshal : Bytes → Dest → Dest × Option Error
  yamlUnmarshal : Bytes → Dest → Dest × Option Error
  yamlUnmarshalStrict : Bytes → Dest → Dest × Option Error

/-- The library encoders `json.Marshal` and `yaml.Marshal`. -/
structure Encoders (Val : Type) where
  jsonMarshal : Val → Bytes × Option Error
  yamlMarshal : Val → Bytes × Option Error

/-- A call of a library codec function. -/
inductive CodecCall where
  | jsonUnmarshal
  | yamlUnmarshal
  | yamlUnmarshalStrict
  | jsonMarshal
  | yamlMarshal
  deriving DecidableEq, Repr

/-- What a decode leaves behind: the destination, the returned error and the
codec functions that were called, in order. -/
structure DecodeResult (Dest : Type) where
  dest : Dest
  err : Option Error
  calls : List CodecCall

/-- Unmarshal supports JSON, YAML. -/
def Unmarshal {Dest : Type} (d : Decoders Dest) (btes : Bytes) (f : Format) (i : Dest) :
    DecodeResult Dest :=
  match f with
  | FormatJSON =>
    let r := d.jsonUnmarshal btes i
    ⟨r.1, WithStack r.2, [CodecCall.jsonUnmarshal]⟩
  | FormatYAML =>
    let r := d.yamlUnmarshal btes i
    ⟨r.1, WithStack r.2, [CodecCall.yamlUnmarshal]⟩
  | _ => ⟨i, WithStack (some Error.ErrUnsupportedFormat), []⟩

/-- UnmarshalStrict supports JSON, YAML. -/
def UnmarshalStrict {Dest : Type} (d : Decoders Dest) (btes : Bytes) (f : Format) (i : Dest) :
    DecodeResult Dest :=
  match f with
  | FormatJSON =>
    let r := d.jsonUnmarshal btes i
    ⟨r.1, WithStack r.2, [CodecCall.jsonUnmarshal]⟩
  | FormatYAML =>
    let r := d.yamlUnmarshalStrict btes i
    ⟨r.1, WithStack r.2, [CodecCall.yamlUnmarshalStrict]⟩
  | _ => ⟨i, WithStack (some Error.ErrUnsupportedFormat), []⟩

/-- What an encode returns: the bytes, the error and the codec functions that
were called. -/
structure EncodeResult where
  btes : Bytes
  err : Option Error
  calls : List CodecCall
  deriving DecidableEq, Repr

/-- Marshal supports JSON, YAML.  `btes` and `errMarshal` start as nil and the
switch has no default branch. -/
def Marshal {Val : Type} (e : Encoders Val) (i : Val) (f : Format) : EncodeResult :=
  match f with
  | FormatJSON =>
    let r := e.jsonMarshal i
    ⟨r.1, WithStack r.2, [CodecCall.jsonMarshal]⟩
  | FormatYAML =>
    let r := e.yamlMarshal i
    ⟨r.1, WithStack r.2, [CodecCall.yamlMarshal]⟩
  | _ => ⟨[], WithStack none, []⟩

/-- A readable stream handle (`io.ReadCloser`). -/
abbrev Stream := Nat

/-- The outside world of the source opener: `sdk.IsURL` (declared outside the
excerpt, taken as given), the HTTP client's `Get` and `os.Open`. -/
structure OpenEnv where
  IsURL : GoString → Bool
  httpGet : GoString → Option Stream × Option Error
  osOpen : GoString → Option Stream × Option Error

/-- An I/O call made by the opener. -/
inductive IOCall where
  | httpGet (u : GoString)
  | osOpen (p : GoString)
  deriving DecidableEq, Repr

/-- OpenURL opens an URL. -/
def OpenURL (env : OpenEnv) (u : GoString) : (Option Stream × Option Error) × List IOCall :=
  let r := env.httpGet u
  if r.2 ≠ none then ((none, WithStack r.2), [IOCall.httpGet u])
  else ((r.1, r.2), [IOCall.httpGet u])

/-- OpenPath opens an URL or a file. -/
def OpenPath (env : OpenEnv) (lo : Char → Char) (path : GoString) :
    (Option Stream × Format × Option Error) × List IOCall :=
  let r := GetFormatFromPath lo path
  if r.2 ≠ none then ((none, r.1, r.2), [])
  else if env.IsURL path then
    let o := OpenURL env path
    if o.1.2 ≠ none then ((none, r.1, o.1.2), o.2)
    else ((o.1.1, r.1, none), o.2)
  else
    let o := env.osOpen path
    if o.2 ≠ none then ((none, r.1, WithStack o.2), [IOCall.osOpen path])
    else ((o.1, r.1, none), [IOCall.osOpen path])

end Exportentities

namespace Exportentities

/-- Sample decoders over a numeric destination: the JSON decoder stores the
length of the input, the lenient YAML decoder stores the first byte, and the
strict YAML decoder rejects the input and leaves the destination as it is. -/
def sampleDecoders : Decoders Nat where
  jsonUnmarshal := fun b _ => (b.length, none)
  yamlUnmarshal := fun b _ => (b.headD 0, none)
  yamlUnmarshalStrict := fun _ i => (i, some (Error.external 1))

/-- Sample encoders over numbers: the JSON encoder fails on zero and the YAML
encoder always succeeds. -/
def sampleEncoders : Encoders Nat where
  jsonMarshal := fun v => if v = 0 then ([], some (Error.external 2)) else ([v], none)
  yamlMarshal := fun v => ([v, v], none)

end Exportentities

namespace Api

open Exportentities (GoString Bytes)

/-- The error kinds of the `sdk` package that the handlers name. -/
inductive Kind where
  | ErrWrongRequest
  | ErrInvalidPipeline
  deriving DecidableEq, Repr

/-- Errors as the handlers build them.  `raw n` is an error handed back by a
collaborator; the other constructors are the terms built by the `sdk` error
functions, which are declared outside the excerpt and are kept uninterpreted:
`wrap e msg` is `sdk.WrapError(e, msg)`, `newError k e` is `sdk.NewError(k, e)`
and `newErrorWithStack e k msg` is
`sdk.NewErrorWithStack(e, sdk.NewErrorFrom(k, msg))`. -/
inductive ApiError where
  | raw (n : Nat)
  | wrap (e : ApiError) (msg : GoString)
  | newError (k : Kind) (e : ApiError)
  | newErrorWithStack (e : ApiError) (k : Kind) (msg : GoString)
  deriving DecidableEq, Repr

/-- A loaded project. -/
structure Project where
  Key : GoString
  id : Nat
  deriving DecidableEq, Repr

/-- The options handed to `pipeline.ParseAndImport`. -/
structure ImportOptions where
  Force : Bool
  PipelineName : GoString
  deriving DecidableEq, Repr

/-- The result of `sdk.ExtractHTTPError`. -/
structure HTTPError where
  Status : Nat
  Message : GoString
  deriving DecidableEq, Repr

/-- The parts of the HTTP request that the handlers read. -/
structure Request where
  key : GoString
  pipelineKey : GoString
  format : GoString
  force : Bool
  acceptLanguage : GoString
  deriving DecidableEq, Repr

/-- The value of `http.StatusOK`. -/
def StatusOK : Nat := 200

/-- The collaborators of the handlers, all declared outside the excerpt and
taken as given: what each returns when called.  Import messages, payloads and
pipelines are identified by numbers. -/
structure World where
  projectLoad : GoString → Except ApiError Project
  readAll : Request → Except ApiError Bytes
  ParsePipeline : GoString → Bytes → Except ApiError Nat
  begin : Option ApiError
  ParseAndImport : Project → Nat → ImportOptions → Nat × List Nat × Option ApiError
  commit : Option ApiError
  translate : Request → List Nat → List GoString
  ErrorIsUnknown : ApiError → Bool
  ExtractHTTPError : ApiError → GoString → HTTPError
  WriteJSON : List GoString → Nat → Option ApiError

/-- A call of a collaborator, with what it returned where that matters. -/
inductive Ev where
  | projectLoad (err : Option ApiError)
  | readBody (err : Option ApiError)
  | ParsePipeline (err : Option ApiError)
  | Begin (err : Option ApiError)
  | ParseAndImport (opts : ImportOptions) (err : Option ApiError)
  | Commit (err : Option ApiError)
  | Rollback
  | PublishPipelineAdd (projKey : GoString) (pip : Nat)
  | WriteJSON (body : List GoString) (status : Nat)
  deriving DecidableEq, Repr

/-- Whether the call is the publication of a PipelineAdd event. -/
def Ev.isPublish : Ev → Bool
  | Ev.PublishPipelineAdd _ _ => true
  | _ => false

/-- Whether the call is a call of Commit, whatever it returned. -/
def Ev.isCommit : Ev → Bool
  | Ev.Commit _ => true
  | _ => false

/-- Whether the call writes a JSON response. -/
def Ev.isWriteJSON : Ev → Bool
  | Ev.WriteJSON _ _ => true
  | _ => false

/-- Whether the call is one of the six fallible steps and returned an error. -/
def Ev.isFailure : Ev → Bool
  | Ev.projectLoad (some _) => true
  | Ev.readBody (some _) => true
  | Ev.ParsePipeline (some _) => true
  | Ev.Begin (some _) => true
  | Ev.ParseAndImport _ (some _) => true
  | Ev.Commit (some _) => true
  | _ => false

/-- The handler of the import route: the calls it makes, in order, and the error
it returns to the framework.  The deferred `tx.Rollback()` runs last on every
path that opened the transaction. -/
def importPipelineHandler (w : World) (r : Request) : List Ev × Option ApiError :=
  match w.projectLoad r.key with
  | .error err =>
    ([Ev.projectLoad (some err)],
      some (ApiError.wrap err ("unable to load project ".toList ++ r.key)))
  | .ok proj =>
  match w.readAll r with
  | .error errRead =>
    ([Ev.projectLoad none, Ev.readBody (some errRead)],
      some (ApiError.newError Kind.ErrWrongRequest
        (ApiError.wrap errRead "Unable to read body".toList)))
  | .ok data =>
  match w.ParsePipeline r.format data with
  | .error err =>
    ([Ev.projectLoad none, Ev.readBody none, Ev.ParsePipeline (some err)], some err)
  | .ok payload =>
  match w.begin with
  | some errBegin =>
    ([Ev.projectLoad none, Ev.readBody none, Ev.ParsePipeline none, Ev.Begin (some errBegin)],
      some (ApiError.wrap errBegin "Cannot start transaction".toList))
  | none =>
  let pre := [Ev.projectLoad none, Ev.readBody none, Ev.ParsePipeline none, Ev.Begin none]
  let opts : ImportOptions := ⟨r.force, []⟩
  let res := w.ParseAndImport proj payload opts
  let pip := res.1
  let allMsg := res.2.1
  let msgListString := w.translate r allMsg
  match res.2.2 with
  | some globalError =>
    let globalError := ApiError.wrap globalError "Unable to import pipeline".toList
    if w.ErrorIsUnknown globalError then
      (pre ++ [Ev.ParseAndImport opts res.2.2, Ev.Rollback], some globalError)
    else
      let sdkErr := w.ExtractHTTPError globalError r.acceptLanguage
      let body := msgListString ++ [sdkErr.Message]
      (pre ++ [Ev.ParseAndImport opts res.2.2, Ev.WriteJSON body sdkErr.Status, Ev.Rollback],
        w.WriteJSON body sdkErr.Status)
  | none =>
  match w.commit with
  | some err =>
    (pre ++ [Ev.ParseAndImport opts none, Ev.Commit (some err), Ev.Rollback],
      some (ApiError.wrap err "Cannot commit transaction".toList))
  | none =>
    (pre ++ [Ev.ParseAndImport opts none, Ev.Commit none, Ev.PublishPipelineAdd proj.Key pip,
        Ev.WriteJSON msgListString StatusOK, Ev.Rollback],
      w.WriteJSON msgListString StatusOK)

/-- The handler of the replace route. -/
def putImportPipelineHandler (w : World) (r : Request) : List Ev × Option ApiError :=
  match w.projectLoad r.key with
  | .error err =>
    ([Ev.projectLoad (some err)],
      some (ApiError.wrap err ("unable to load project ".toList ++ r.key)))
  | .ok proj =>
  match w.readAll r with
  | .error err =>
    ([Ev.projectLoad none, Ev.readBody (some err)],
      some (ApiError.newErrorWithStack err Kind.ErrWrongRequest "unable to read body".toList))
  | .ok data =>
  match w.ParsePipeline r.format data with
  | .error err =>
    ([Ev.projectLoad none, Ev.readBody none, Ev.ParsePipeline (some err)], some err)
  | .ok payload =>
  match w.begin with
  | some err =>
    ([Ev.projectLoad none, Ev.readBody none, Ev.ParsePipeline none, Ev.Begin (some err)],
      some (ApiError.wrap err "cannot start transaction".toList))
  | none =>
  let pre := [Ev.projectLoad none, Ev.readBody none, Ev.ParsePipeline none, Ev.Begin none]
  let opts : ImportOptions := ⟨true, r.pipelineKey⟩
  let res := w.ParseAndImport proj payload opts
  let pip := res.1
  let allMsg := res.2.1
  let msgListString := w.translate r allMsg
  match res.2.2 with
  | some err =>
    (pre ++ [Ev.ParseAndImport opts (some err), Ev.Rollback],
      some (ApiError.newErrorWithStack err Kind.ErrInvalidPipeline
        "unable to parse and import pipeline".toList))
  | none =>
  match w.commit with
  | some err =>
    (pre ++ [Ev.ParseAndImport opts none, Ev.Commit (some err), Ev.Rollback],
      some (ApiError.wrap err "cannot commit transaction".toList))
  | none =>
    (pre ++ [Ev.ParseAndImport opts none, Ev.Commit none, Ev.PublishPipelineAdd proj.Key pip,
        Ev.WriteJSON msgListString StatusOK, Ev.Rollback],
      w.WriteJSON msgListString StatusOK)

end Api

namespace Api

open Exportentities (GoString Bytes)

/-- A sample request: project P, pipeline X, format yaml, no force. -/
def sampleRequest : Request :=
  ⟨"P".toList, "X".toList, "yaml".toList, false, "en".toList⟩

/-- A sample world in which project load, body read, ParsePipeline and Begin
succeed, ParseAndImport returns two messages and the given error, Commit
returns the given error, and every error is classified as told. -/
def sampleWorld (importErr commitErr : Option ApiError) (unknown : Bool) : World where
  projectLoad := fun k => .ok ⟨k, 1⟩
  readAll := fun _ => .ok [1, 2]
  ParsePipeline := fun _ _ => .ok 3
  begin := none
  ParseAndImport := fun _ _ _ => (4, [10, 11], importErr)
  commit := commitErr
  translate := fun _ ms => ms.map fun _ => "msg".toList
  ErrorIsUnknown := fun _ => unknown
  ExtractHTTPError := fun _ _ => ⟨400, "invalid pipeline".toList⟩
  WriteJSON := fun _ _ => none

end Api

/-! ## Facts about the string helpers -/

namespace Exportentities

open Format

theorem toNat_ofNat_small (n : Nat) (h : n < 0xd800) : (Char.ofNat n).toNat = n := by
  have hv : n.isValidChar := Or.inl h
  simp only [Char.ofNat, hv, dite_true, Char.toNat, Char.ofNatAux]
  show (UInt32.toNat ⟨n, _⟩) = n
  rfl

theorem isSpace_false_of_letter (c : Char) (h : 65 ≤ c.toNat ∧ c.toNat ≤ 122) :
    isSpace c = false := by
  rw [Bool.eq_false_iff]
  intro hs
  simp only [isSpace, Bool.or_eq_true, Bool.and_eq_true, decide_eq_true_eq, beq_iff_eq] at hs
  omega

theorem toLower_eq_self (c : Char) (h : ¬ (c.toNat ≥ 65 ∧ c.toNat ≤ 90)) : c.toLower = c := by
  unfold Char.toLower
  simp only []
  rw [if_neg h]

theorem toUpper_eq_self (c : Char) (h : ¬ (c.toNat ≥ 97 ∧ c.toNat ≤ 122)) : c.toUpper = c := by
  unfold Char.toUpper
  simp only []
  rw [if_neg h]

theorem toNat_toLower (c : Char) (h : c.toNat ≥ 65 ∧ c.toNat ≤ 90) :
    c.toLower.toNat = c.toNat + 32 := by
  unfold Char.toLower
  simp only []
  rw [if_pos h]
  exact toNat_ofNat_small _ (by omega)

theorem toNat_toUpper (c : Char) (h : c.toNat ≥ 97 ∧ c.toNat ≤ 122) :
    c.toUpper.toNat = c.toNat - 32 := by
  unfold Char.toUpper
  simp only []
  rw [if_pos h]
  exact toNat_ofNat_small _ (by omega)

theorem toLower_toUpper (c : Char) : c.toUpper.toLower = c.toLower := by
  by_cases h : c.toNat ≥ 97 ∧ c.toNat ≤ 122
  · have e := toNat_toUpper c h
    rw [toLower_eq_self c (by omega)]
    have hu : c.toUpper = Char.ofNat (c.toNat - 32) := by
      unfold Char.toUpper
      simp only []
      rw [if_pos h]
    have hl : c.toUpper.toLower = Char.ofNat (c.toUpper.toNat + 32) := by
      show (if c.toUpper.toNat ≥ 65 ∧ c.toUpper.toNat ≤ 90 then
        Char.ofNat (c.toUpper.toNat + 32) else c.toUpper) = _
      rw [if_pos (by omega)]
    have e2 : c.toNat - 32 + 32 = c.toNat := by omega
    rw [hl, e, e2, Char.ofNat_toNat]
  · rw [toUpper_eq_self c h]

theorem toLowerRune_toUpper (lo : Char → Char) (c : Char) :
    toLowerRune lo c.toUpper = toLowerRune lo c := by
  by_cases h : c.toNat ≥ 97 ∧ c.toNat ≤ 122
  · have e := toNat_toUpper c h
    unfold toLowerRune
    rw [if_pos (by omega), if_pos (by omega), toLower_toUpper]
  · rw [toUpper_eq_self c h]

theorem toLowerRune_toLower (lo : Char → Char) (c : Char) :
    toLowerRune lo c.toLower = toLowerRune lo c := by
  by_cases h : c.toNat ≥ 65 ∧ c.toNat ≤ 90
  · have e := toNat_toLower c h
    unfold toLowerRune
    rw [if_pos (by omega), if_pos (by omega), toLower_eq_self c.toLower (by omega)]
  · rw [toLower_eq_self c h]

theorem toLowerRune_of_isSpace (lo : Char → Char) (c : Char) (h : isSpace c = true) :
    toLowerRune lo c = c := by
  unfold toLowerRune
  by_cases hc : c.toNat < 128
  · rw [if_pos hc]
    apply toLower_eq_self
    intro hl
    rw [isSpace_false_of_letter c (by omega)] at h
    exact absurd h (by decide)
  · rw [if_neg hc, if_pos h]

theorem ToLower_of_spaces (lo : Char → Char) (l : GoString)
    (h : ∀ c ∈ l, isSpace c = true) : ToLower lo l = l := by
  induction l with
  | nil => rfl
  | cons a l ih =>
    have ha : toLowerRune lo a = a :=
      toLowerRune_of_isSpace lo a (h a (List.mem_cons_self a l))
    have hl : ToLower lo l = l := ih (fun c hc => h c (List.mem_cons_of_mem a hc))
    show toLowerRune lo a :: ToLower lo l = a :: l
    rw [ha, hl]

theorem dropWhile_eq_nil_of_all {α : Type} (p : α → Bool) (t : List α)
    (h : ∀ c ∈ t, p c = true) : t.dropWhile p = [] := by
  rw [← List.append_nil t, List.dropWhile_append_of_pos h]; rfl

theorem dropWhile_append_spaces {α : Type} (p : α → Bool) (t r : List α)
    (hr : ∀ c ∈ r, p c = true) :
    (t ++ r).dropWhile p = if t.all p then [] else t.dropWhile p ++ r := by
  induction t with
  | nil =>
    simp only [List.nil_append, List.all_nil, if_true]
    exact dropWhile_eq_nil_of_all p r hr
  | cons a t ih =>
    by_cases ha : p a = true
    · simp only [List.cons_append, List.dropWhile_cons, ha, if_true, List.all_cons,
        Bool.true_and]
      exact ih
    · simp [List.dropWhile_cons, ha]

theorem trimRight_append_spaces (p : Char → Bool) (u r : GoString)
    (hr : ∀ c ∈ r, p c = true) : trimRight p (u ++ r) = trimRight p u := by
  unfold trimRight
  rw [List.reverse_append,
    List.dropWhile_append_of_pos (fun c hc => hr c (List.mem_reverse.mp hc))]

theorem TrimSpace_pad (l t r : GoString) (hl : ∀ c ∈ l, isSpace c = true)
    (hr : ∀ c ∈ r, isSpace c = true) : TrimSpace (l ++ t ++ r) = TrimSpace t := by
  unfold TrimSpace
  rw [List.append_assoc, List.dropWhile_append_of_pos hl, dropWhile_append_spaces isSpace t r hr]
  by_cases ht : t.all isSpace = true
  · rw [if_pos ht, dropWhile_eq_nil_of_all isSpace t (by simpa using ht)]
  · rw [if_neg ht, trimRight_append_spaces isSpace _ r hr]

theorem GetFormatFromPath_congr (lo : Char → Char) (s s2 : GoString)
    (h : ToLower lo s2 = ToLower lo s) :
    GetFormatFromPath lo s2 = GetFormatFromPath lo s := by
  unfold GetFormatFromPath
  rw [h]

theorem GetFormatFromPath_pad (lo : Char → Char) (l s r : GoString)
    (hl : ∀ c ∈ l, isSpace c = true) (hr : ∀ c ∈ r, isSpace c = true) :
    GetFormatFromPath lo (l ++ s ++ r) = GetFormatFromPath lo s := by
  have e : TrimSpace (ToLower lo (l ++ s ++ r)) = TrimSpace (ToLower lo s) := by
    unfold ToLower
    rw [List.map_append, List.map_append]
    have e1 : l.map (toLowerRune lo) = l := ToLower_of_spaces lo l hl
    have e2 : r.map (toLowerRune lo) = r := ToLower_of_spaces lo r hr
    rw [e1, e2]
    exact TrimSpace_pad l _ r hl hr
  unfold GetFormatFromPath
  simp only [e]

end Exportentities

/-! ## The format codec and the source opener -/

namespace Exportentities

open Format

theorem GetFormatFromPath_cases (lo : Char → Char) (s : GoString) :
    (GetFormatFromPath lo s = (FormatYAML, none) ↔
      TrimSpace (ToLower lo s) ∈
        ["yaml".toList, "yml".toList, ".yaml".toList, ".yml".toList]) ∧
    (GetFormatFromPath lo s = (FormatJSON, none) ↔
      TrimSpace (ToLower lo s) ∈ ["json".toList, ".json".toList]) ∧
    (GetFormatFromPath lo s =
        (UnknownFormat, some (Error.stacked Error.ErrUnsupportedFormat)) ↔
      TrimSpace (ToLower lo s) ∉
        ["yaml".toList, "yml".toList, ".yaml".toList, ".yml".toList,
          "json".toList, ".json".toList]) := by
  unfold GetFormatFromPath
  simp only []
  generalize TrimSpace (ToLower lo s) = t
  by_cases h1 : t = "yaml".toList ∨ t = "yml".toList ∨ t = ".yaml".toList ∨ t = ".yml".toList
  · rw [if_pos h1]
    rcases h1 with h | h | h | h <;> subst h <;> decide
  · rw [if_neg h1]
    by_cases h2 : t = "json".toList ∨ t = ".json".toList
    · rw [if_pos h2]
      rcases h2 with h | h <;> subst h <;> decide
    · rw [if_neg h2]
      simp only [not_or] at h1 h2
      obtain ⟨a1, a2, a3, a4⟩ := h1
      obtain ⟨b1, b2⟩ := h2
      simp only [WithStack, List.mem_cons, List.mem_singleton, List.not_mem_nil, or_false,
        not_or, Prod.mk.injEq, and_false, false_iff, true_iff, not_true_eq_false, and_self,
        not_false_eq_true, a1, a2, a3, a4, b1, b2, reduceCtorEq]

/-- C1 (amended): GetFormatFromPath is decided by the input lowercased and then
stripped of surrounding white space: the YAML format without error exactly on
the tokens yaml, yml, .yaml, .yml; the JSON format without error exactly on
json, .json; the unknown format with ErrUnsupportedFormat exactly on everything
else.  So inputs that strings.ToLower maps to the same string give the same
result, and in particular upper-casing or lower-casing the ASCII letters changes
nothing (nothing is said of a rune above the ASCII range whose upper-case form
lowers to another rune); padding with white space on either side changes
nothing; and each token is accepted with and without its leading dot. -/
theorem GetFormatFromPath_spec (lo : Char → Char) (s : GoString) :
    (GetFormatFromPath lo s = (FormatYAML, none) ↔
      TrimSpace (ToLower lo s) ∈
        ["yaml".toList, "yml".toList, ".yaml".toList, ".yml".toList]) ∧
    (GetFormatFromPath lo s = (FormatJSON, none) ↔
      TrimSpace (ToLower lo s) ∈ ["json".toList, ".json".toList]) ∧
    (GetFormatFromPath lo s =
        (UnknownFormat, some (Error.stacked Error.ErrUnsupportedFormat)) ↔
      TrimSpace (ToLower lo s) ∉
        ["yaml".toList, "yml".toList, ".yaml".toList, ".yml".toList,
          "json".toList, ".json".toList]) ∧
    (∀ s2 : GoString, ToLower lo s2 = ToLower lo s →
      GetFormatFromPath lo s2 = GetFormatFromPath lo s) ∧
    GetFormatFromPath lo (s.map Char.toUpper) = GetFormatFromPath lo s ∧
    GetFormatFromPath lo (s.map Char.toLower) = GetFormatFromPath lo s ∧
    (∀ l r : GoString, (∀ c ∈ l, isSpace c = true) → (∀ c ∈ r, isSpace c = true) →
      GetFormatFromPath lo (l ++ s ++ r) = GetFormatFromPath lo s) ∧
    (∀ tok ∈ ["yaml".toList, "yml".toList, "json".toList],
      GetFormatFromPath lo ('.' :: tok) = GetFormatFromPath lo tok ∧
      (GetFormatFromPath lo tok).2 = none) := by
  obtain ⟨hy, hj, hu⟩ := GetFormatFromPath_cases lo s
  refine ⟨hy, hj, hu, fun s2 h => GetFormatFromPath_congr lo s s2 h, ?_, ?_,
    fun l r hl hr => GetFormatFromPath_pad lo l s r hl hr, ?_⟩
  · apply GetFormatFromPath_congr
    unfold ToLower
    rw [List.map_map]
    apply List.map_congr_left
    intro c _
    exact toLowerRune_toUpper lo c
  · apply GetFormatFromPath_congr
    unfold ToLower
    rw [List.map_map]
    apply List.map_congr_left
    intro c _
    exact toLowerRune_toLower lo c
  · intro tok htok
    simp only [List.mem_cons, List.mem_singleton, List.not_mem_nil, or_false] at htok
    rcases htok with h | h | h <;> subst h <;> exact ⟨rfl, rfl⟩

/-- C1 (counterexample): changing letter case can change the result.  The
input made of j, the long s (U+017F), o, n and its upper-casing JSON differ in
letter case only; strings.ToLower keeps the long s, which is a lower-case
letter already, so the first is rejected with ErrUnsupportedFormat, while the
second is lowered to json and accepted as JSON.  The lower-case and upper-case
tables above the ASCII range are taken as the identity here, which is what the
Unicode tables give on the long s for lowering. -/
theorem GetFormatFromPath_case_counterexample :
    ToUpper id "j\u017Fon".toList = "JSON".toList ∧
    GetFormatFromPath id "j\u017Fon".toList =
      (UnknownFormat, some (Error.stacked Error.ErrUnsupportedFormat)) ∧
    GetFormatFromPath id (ToUpper id "j\u017Fon".toList) = (FormatJSON, none) ∧
    ¬ (∀ s : GoString, GetFormatFromPath id (ToUpper id s) = GetFormatFromPath id s) := by
  refine ⟨by decide, by decide, by decide, ?_⟩
  intro h
  exact absurd (h "j\u017Fon".toList) (by decide)

/-- The statement of C1 at the input " .YaML" followed by a newline, with no
lowering above the ASCII range: it is accepted as YAML, also when padded. -/
theorem GetFormatFromPath_spec_witness :
    GetFormatFromPath id " .YaML\n".toList = (FormatYAML, none) ∧
    GetFormatFromPath id ("\t ".toList ++ " .YaML\n".toList ++ " ".toList) =
      (FormatYAML, none) :=
  ⟨by decide,
    ((GetFormatFromPath_spec id " .YaML\n".toList).2.2.2.2.2.2.1 "\t ".toList " ".toList
      (by decide) (by decide)).trans (by decide)⟩

end Exportentities

namespace Exportentities

open Format

/-- C2 (evaluation of the code): OpenPath hands the whole path to
GetFormatFromPath, which compares the whole lowercased, trimmed string with the
six tokens.  The path "dir/pipeline.yaml" ends in ".yaml", and yet OpenPath
returns no stream, the unknown format and ErrUnsupportedFormat, and opens
neither a file nor an URL, whatever the outside world is. -/
theorem OpenPath_rejects_suffixed_path (env : OpenEnv) (lo : Char → Char) :
    HasSuffix "dir/pipeline.yaml".toList ".yaml".toList = true ∧
    OpenPath env lo "dir/pipeline.yaml".toList =
      ((none, UnknownFormat, some (Error.stacked Error.ErrUnsupportedFormat)), []) := by
  refine ⟨by decide, ?_⟩
  have e : GetFormatFromPath lo "dir/pipeline.yaml".toList =
      (UnknownFormat, some (Error.stacked Error.ErrUnsupportedFormat)) := rfl
  unfold OpenPath
  simp only [e]
  rfl

/-- C6: whenever the format is not YAML, UnmarshalStrict and Unmarshal give the
same destination, the same error and make the same decoder calls: for JSON both
are the one lenient JSON decode, for any other format both return
ErrUnsupportedFormat.  So the two can differ only for YAML, where UnmarshalStrict
calls the strict YAML decoder and Unmarshal the lenient one. -/
theorem UnmarshalStrict_eq_Unmarshal {Dest : Type} (d : Decoders Dest) (btes : Bytes)
    (f : Format) (i : Dest) :
    (f ≠ FormatYAML → UnmarshalStrict d btes f i = Unmarshal d btes f i) ∧
    (f = FormatJSON →
      UnmarshalStrict d btes f i =
        ⟨(d.jsonUnmarshal btes i).1, WithStack (d.jsonUnmarshal btes i).2,
          [CodecCall.jsonUnmarshal]⟩ ∧
      Unmarshal d btes f i =
        ⟨(d.jsonUnmarshal btes i).1, WithStack (d.jsonUnmarshal btes i).2,
          [CodecCall.jsonUnmarshal]⟩) ∧
    (f ≠ FormatJSON → f ≠ FormatYAML →
      UnmarshalStrict d btes f i =
        ⟨i, some (Error.stacked Error.ErrUnsupportedFormat), []⟩ ∧
      Unmarshal d btes f i = ⟨i, some (Error.stacked Error.ErrUnsupportedFormat), []⟩) ∧
    (UnmarshalStrict d btes f i ≠ Unmarshal d btes f i → f = FormatYAML) ∧
    UnmarshalStrict d btes FormatYAML i =
      ⟨(d.yamlUnmarshalStrict btes i).1, WithStack (d.yamlUnmarshalStrict btes i).2,
        [CodecCall.yamlUnmarshalStrict]⟩ ∧
    Unmarshal d btes FormatYAML i =
      ⟨(d.yamlUnmarshal btes i).1, WithStack (d.yamlUnmarshal btes i).2,
        [CodecCall.yamlUnmarshal]⟩ := by
  refine ⟨?_, ?_, ?_, ?_, rfl, rfl⟩
  · intro h
    cases f
    · rfl
    · exact absurd rfl h
    · rfl
  · intro h
    subst h
    exact ⟨rfl, rfl⟩
  · intro h1 h2
    cases f
    · exact absurd rfl h1
    · exact absurd rfl h2
    · exact ⟨rfl, rfl⟩
  · intro h
    cases f
    · exact absurd rfl h
    · rfl
    · exact absurd rfl h

/-- C6 at sample decoders: on JSON the strict and the lenient decode agree, and
on YAML they do differ. -/
theorem UnmarshalStrict_eq_Unmarshal_witness :
    UnmarshalStrict sampleDecoders [5, 6] FormatJSON 0 =
      Unmarshal sampleDecoders [5, 6] FormatJSON 0 ∧
    (UnmarshalStrict sampleDecoders [5, 6] FormatYAML 0).err ≠
      (Unmarshal sampleDecoders [5, 6] FormatYAML 0).err :=
  ⟨(UnmarshalStrict_eq_Unmarshal sampleDecoders [5, 6] FormatJSON 0).1 (by decide),
    by decide⟩

/-- C7: with a format other than JSON and YAML, Unmarshal and UnmarshalStrict
return ErrUnsupportedFormat (with its stack), call no decoder and leave the
destination as it was; with JSON or YAML the returned error is the error of the
decoder that was called (with its stack), and nil when the decoder returned
nil. -/
theorem Unmarshal_unsupported {Dest : Type} (d : Decoders Dest) (btes : Bytes)
    (f : Format) (i : Dest) :
    (f ≠ FormatJSON → f ≠ FormatYAML →
      Unmarshal d btes f i = ⟨i, some (Error.stacked Error.ErrUnsupportedFormat), []⟩ ∧
      UnmarshalStrict d btes f i =
        ⟨i, some (Error.stacked Error.ErrUnsupportedFormat), []⟩) ∧
    Unmarshal d btes UnknownFormat i =
      ⟨i, some (Error.stacked Error.ErrUnsupportedFormat), []⟩ ∧
    UnmarshalStrict d btes UnknownFormat i =
      ⟨i, some (Error.stacked Error.ErrUnsupportedFormat), []⟩ ∧
    (Unmarshal d btes FormatJSON i).err = WithStack (d.jsonUnmarshal btes i).2 ∧
    (UnmarshalStrict d btes FormatJSON i).err = WithStack (d.jsonUnmarshal btes i).2 ∧
    (Unmarshal d btes FormatYAML i).err = WithStack (d.yamlUnmarshal btes i).2 ∧
    (UnmarshalStrict d btes FormatYAML i).err = WithStack (d.yamlUnmarshalStrict btes i).2 ∧
    ((d.jsonUnmarshal btes i).2 = none →
      (Unmarshal d btes FormatJSON i).err = none ∧
      (UnmarshalStrict d btes FormatJSON i).err = none) ∧
    ((d.yamlUnmarshal btes i).2 = none → (Unmarshal d btes FormatYAML i).err = none) ∧
    ((d.yamlUnmarshalStrict btes i).2 = none →
      (UnmarshalStrict d btes FormatYAML i).err = none) := by
  refine ⟨?_, rfl, rfl, rfl, rfl, rfl, rfl, ?_, ?_, ?_⟩
  · intro h1 h2
    cases f
    · exact absurd rfl h1
    · exact absurd rfl h2
    · exact ⟨rfl, rfl⟩
  · intro h
    have e1 : (Unmarshal d btes FormatJSON i).err = WithStack (d.jsonUnmarshal btes i).2 := rfl
    have e2 : (UnmarshalStrict d btes FormatJSON i).err =
        WithStack (d.jsonUnmarshal btes i).2 := rfl
    rw [e1, e2, h]
    exact ⟨rfl, rfl⟩
  · intro h
    have e1 : (Unmarshal d btes FormatYAML i).err = WithStack (d.yamlUnmarshal btes i).2 := rfl
    rw [e1, h]
    rfl
  · intro h
    have e1 : (UnmarshalStrict d btes FormatYAML i).err =
        WithStack (d.yamlUnmarshalStrict btes i).2 := rfl
    rw [e1, h]
    rfl

/-- C7 at sample decoders: the unknown format leaves the destination 9 as it
was, and a successful JSON decode returns no error. -/
theorem Unmarshal_unsupported_witness :
    (Unmarshal sampleDecoders [5, 6] UnknownFormat 9).dest = 9 ∧
    (Unmarshal sampleDecoders [5, 6] FormatJSON 9).err = none :=
  ⟨congrArg DecodeResult.dest
      ((Unmarshal_unsupported sampleDecoders [5, 6] UnknownFormat 9).1
        (by decide) (by decide)).1,
    ((Unmarshal_unsupported sampleDecoders [5, 6] FormatJSON 9).2.2.2.2.2.2.2.1 rfl).1⟩

/-- C8: with a format other than JSON and YAML, Marshal returns nil bytes and
no error and calls no encoder; when Marshal returns an error, the format is JSON
or YAML and the error is the non-nil error of that encoder (with its stack). -/
theorem Marshal_unknown {Val : Type} (e : Encoders Val) (v : Val) (f : Format) :
    (f ≠ FormatJSON → f ≠ FormatYAML → Marshal e v f = ⟨[], none, []⟩) ∧
    Marshal e v UnknownFormat = ⟨[], none, []⟩ ∧
    ((Marshal e v f).err ≠ none →
      (f = FormatJSON ∧ (e.jsonMarshal v).2 ≠ none ∧
        (Marshal e v f).err = WithStack (e.jsonMarshal v).2 ∧
        (Marshal e v f).calls = [CodecCall.jsonMarshal]) ∨
      (f = FormatYAML ∧ (e.yamlMarshal v).2 ≠ none ∧
        (Marshal e v f).err = WithStack (e.yamlMarshal v).2 ∧
        (Marshal e v f).calls = [CodecCall.yamlMarshal])) := by
  refine ⟨?_, rfl, ?_⟩
  · intro h1 h2
    cases f
    · exact absurd rfl h1
    · exact absurd rfl h2
    · rfl
  · intro h
    cases f
    · refine Or.inl ⟨rfl, ?_, rfl, rfl⟩
      intro hn
      apply h
      show WithStack (e.jsonMarshal v).2 = none
      rw [hn]
      rfl
    · refine Or.inr ⟨rfl, ?_, rfl, rfl⟩
      intro hn
      apply h
      show WithStack (e.yamlMarshal v).2 = none
      rw [hn]
      rfl
    · exact absurd rfl h

/-- C8 at sample encoders: the unknown format gives nil bytes without error,
and the error of a JSON encode of zero is the error of the JSON encoder. -/
theorem Marshal_unknown_witness :
    Marshal sampleEncoders 4 UnknownFormat = ⟨[], none, []⟩ ∧
    ((FormatJSON = FormatJSON ∧ (sampleEncoders.jsonMarshal 0).2 ≠ none ∧
        (Marshal sampleEncoders 0 FormatJSON).err = WithStack (sampleEncoders.jsonMarshal 0).2 ∧
        (Marshal sampleEncoders 0 FormatJSON).calls = [CodecCall.jsonMarshal]) ∨
      (FormatJSON = FormatYAML ∧ (sampleEncoders.yamlMarshal 0).2 ≠ none ∧
        (Marshal sampleEncoders 0 FormatJSON).err = WithStack (sampleEncoders.yamlMarshal 0).2 ∧
        (Marshal sampleEncoders 0 FormatJSON).calls = [CodecCall.yamlMarshal])) :=
  ⟨(Marshal_unknown sampleEncoders 4 UnknownFormat).1 (by decide) (by decide),
    (Marshal_unknown sampleEncoders 0 FormatJSON).2.2 (by decide)⟩

/-- C9: for each of the three formats, GetFormatFromPath applied to the content
type that GetContentType gives returns the unknown format with
ErrUnsupportedFormat: none of the three MIME strings is a path token. -/
theorem GetFormatFromPath_GetContentType (lo : Char → Char) (f : Format) :
    GetFormatFromPath lo (GetContentType f) =
      (UnknownFormat, some (Error.stacked Error.ErrUnsupportedFormat)) ∧
    GetContentType FormatJSON = "application/json".toList ∧
    GetContentType FormatYAML = "application/x-yaml".toList ∧
    GetContentType UnknownFormat = "application/octet-stream".toList := by
  refine ⟨?_, rfl, rfl, rfl⟩
  cases f <;> rfl

/-- C10: the format returned by ReadFile is JSON exactly when the file name
ends in the suffix ".json", compared rune by rune, and YAML otherwise; it is
never the unknown format; it does not depend on what reading the file gives;
and the bytes and the error returned are those of the file read. -/
theorem ReadFile_format (readFile : GoString → Bytes × Option Error) (filename : GoString) :
    ((ReadFile readFile filename).2.1 = FormatJSON ↔
      ∃ p : GoString, filename = p ++ ".json".toList) ∧
    ((ReadFile readFile filename).2.1 = FormatYAML ↔
      ¬ ∃ p : GoString, filename = p ++ ".json".toList) ∧
    (ReadFile readFile filename).2.1 ≠ UnknownFormat ∧
    (∀ readFile2 : GoString → Bytes × Option Error,
      (ReadFile readFile2 filename).2.1 = (ReadFile readFile filename).2.1) ∧
    (ReadFile readFile filename).2.2 = (readFile filename).2 ∧
    (ReadFile readFile filename).1 = (readFile filename).1 ∧
    (ReadFile readFile "a.JSON".toList).2.1 = FormatYAML ∧
    (ReadFile readFile "a.json".toList).2.1 = FormatJSON := by
  have hs : HasSuffix filename ".json".toList = true ↔
      ∃ p : GoString, filename = p ++ ".json".toList := by
    unfold HasSuffix
    rw [List.isSuffixOf_iff_suffix]
    constructor
    · rintro ⟨p, hp⟩
      exact ⟨p, hp.symm⟩
    · rintro ⟨p, hp⟩
      exact ⟨p, hp.symm⟩
  have hf : (ReadFile readFile filename).2.1 =
      if HasSuffix filename ".json".toList then FormatJSON else FormatYAML := rfl
  refine ⟨?_, ?_, ?_, fun _ => rfl, rfl, rfl, rfl, rfl⟩
  · rw [hf, ← hs]
    by_cases h : HasSuffix filename ".json".toList = true
    · simp [h]
    · simp [h]
  · rw [hf, ← hs]
    by_cases h : HasSuffix filename ".json".toList = true
    · simp [h]
    · simp [h]
  · rw [hf]
    by_cases h : HasSuffix filename ".json".toList = true
    · rw [if_pos h]
      decide
    · rw [if_neg h]
      decide

end Exportentities

/-! ## The import handlers -/

namespace Api

open Exportentities (GoString Bytes)

theorem takeWhile_split_subset {α : Type} (q : α → Bool) (x : α) (b : List α) (hx : q x = false) :
    ∀ a : List α, ∀ e ∈ (a ++ x :: b).takeWhile q, e ∈ a := by
  intro a
  induction a with
  | nil =>
    intro e he
    simp [List.takeWhile_cons, hx] at he
  | cons y a ih =>
    intro e he
    by_cases hy : q y = true
    · simp only [List.cons_append, List.takeWhile_cons, hy, if_true, List.mem_cons] at he
      rcases he with h | h
      · exact h ▸ List.mem_cons_self _ _
      · exact List.mem_cons_of_mem _ (ih e h)
    · simp [List.takeWhile_cons, hy] at he

theorem importPipelineHandler_shape (w : World) (r : Request) :
    (∃ e, (importPipelineHandler w r).1 = [Ev.projectLoad (some e)]) ∨
    (∃ e, (importPipelineHandler w r).1 = [Ev.projectLoad none, Ev.readBody (some e)]) ∨
    (∃ e, (importPipelineHandler w r).1 =
      [Ev.projectLoad none, Ev.readBody none, Ev.ParsePipeline (some e)]) ∨
    (∃ e, (importPipelineHandler w r).1 =
      [Ev.projectLoad none, Ev.readBody none, Ev.ParsePipeline none, Ev.Begin (some e)]) ∨
    (∃ o e, (importPipelineHandler w r).1 =
      [Ev.projectLoad none, Ev.readBody none, Ev.ParsePipeline none, Ev.Begin none,
        Ev.ParseAndImport o (some e), Ev.Rollback]) ∨
    (∃ o e body st, (importPipelineHandler w r).1 =
      [Ev.projectLoad none, Ev.readBody none, Ev.ParsePipeline none, Ev.Begin none,
        Ev.ParseAndImport o (some e), Ev.WriteJSON body st, Ev.Rollback]) ∨
    (∃ o e, (importPipelineHandler w r).1 =
      [Ev.projectLoad none, Ev.readBody none, Ev.ParsePipeline none, Ev.Begin none,
        Ev.ParseAndImport o none, Ev.Commit (some e), Ev.Rollback]) ∨
    (∃ o k p body, (importPipelineHandler w r).1 =
      [Ev.projectLoad none, Ev.readBody none, Ev.ParsePipeline none, Ev.Begin none,
        Ev.ParseAndImport o none, Ev.Commit none, Ev.PublishPipelineAdd k p,
        Ev.WriteJSON body StatusOK, Ev.Rollback]) := by
  unfold importPipelineHandler
  split
  · exact Or.inl ⟨_, rfl⟩
  split
  · exact Or.inr (Or.inl ⟨_, rfl⟩)
  split
  · exact Or.inr (Or.inr (Or.inl ⟨_, rfl⟩))
  split
  · exact Or.inr (Or.inr (Or.inr (Or.inl ⟨_, rfl⟩)))
  simp only []
  split
  · split
    · rename_i h _
      exact Or.inr (Or.inr (Or.inr (Or.inr (Or.inl ⟨_, _, by rw [h]; rfl⟩))))
    · rename_i h _
      exact Or.inr (Or.inr (Or.inr (Or.inr (Or.inr (Or.inl ⟨_, _, _, _, by rw [h]; rfl⟩)))))
  split
  · exact Or.inr (Or.inr (Or.inr (Or.inr (Or.inr (Or.inr (Or.inl ⟨_, _, rfl⟩))))))
  · exact Or.inr (Or.inr (Or.inr (Or.inr (Or.inr (Or.inr (Or.inr ⟨_, _, _, _, rfl⟩))))))

theorem importPipelineHandler_trace_facts (w : World) (r : Request) :
    ((∃ e ∈ (importPipelineHandler w r).1, e.isPublish = true) ↔
      ((∃ o, Ev.ParseAndImport o none ∈ (importPipelineHandler w r).1) ∧
        Ev.Commit none ∈ (importPipelineHandler w r).1)) ∧
    (importPipelineHandler w r).1.countP Ev.isPublish ≤ 1 ∧
    ((importPipelineHandler w r).1.countP Ev.isPublish = 1 ↔
      ((∃ o, Ev.ParseAndImport o none ∈ (importPipelineHandler w r).1) ∧
        Ev.Commit none ∈ (importPipelineHandler w r).1)) ∧
    (∀ (a b : List Ev) (k : GoString) (p : Nat),
      (importPipelineHandler w r).1 = a ++ Ev.PublishPipelineAdd k p :: b →
        Ev.Commit none ∈ a) ∧
    ((∃ e ∈ (importPipelineHandler w r).1, e.isFailure = true) →
      Ev.Commit none ∉ (importPipelineHandler w r).1 ∧
      (importPipelineHandler w r).1.countP Ev.isPublish = 0) := by
  have hsplit : ∀ (a b : List Ev) (k : GoString) (p : Nat),
      (importPipelineHandler w r).1 = a ++ Ev.PublishPipelineAdd k p :: b →
      Ev.Commit none ∈ ((importPipelineHandler w r).1.takeWhile fun e => !e.isPublish) →
      Ev.Commit none ∈ a := by
    intro a b k p h hm
    rw [h] at hm
    exact takeWhile_split_subset (fun e : Ev => !e.isPublish) (Ev.PublishPipelineAdd k p) b rfl a _ hm
  have hnone : ∀ (a b : List Ev) (k : GoString) (p : Nat),
      (importPipelineHandler w r).1 = a ++ Ev.PublishPipelineAdd k p :: b →
      (importPipelineHandler w r).1.countP Ev.isPublish = 0 → Ev.Commit none ∈ a := by
    intro a b k p h hc
    rw [h, List.countP_append, List.countP_cons_of_pos _ _ rfl] at hc
    omega
  rcases importPipelineHandler_shape w r with ⟨e, h⟩ | ⟨e, h⟩ | ⟨e, h⟩ | ⟨e, h⟩ | ⟨o, e, h⟩ |
    ⟨o, e, body, st, h⟩ | ⟨o, e, h⟩ | ⟨o, k, p, body, h⟩
  all_goals
    refine ⟨?_, ?_, ?_, ?_, ?_⟩
  all_goals
    first
    | (intro a b k2 p2 hab
       first
       | (refine hnone a b k2 p2 hab ?_
          rw [h]
          simp [List.countP_cons, Ev.isPublish]
          done)
       | (refine hsplit a b k2 p2 hab ?_
          rw [h]
          simp [List.takeWhile_cons, Ev.isPublish]))
    | (rw [h]
       simp [List.countP_cons, Ev.isPublish, Ev.isFailure])

theorem importPipelineHandler_run (w : World) (r : Request) :
    (∃ e, w.projectLoad r.key = .error e ∧
      (importPipelineHandler w r).1 = [Ev.projectLoad (some e)]) ∨
    (∃ proj e, w.projectLoad r.key = .ok proj ∧ w.readAll r = .error e ∧
      (importPipelineHandler w r).1 = [Ev.projectLoad none, Ev.readBody (some e)]) ∨
    (∃ proj data e, w.projectLoad r.key = .ok proj ∧ w.readAll r = .ok data ∧
      w.ParsePipeline r.format data = .error e ∧
      (importPipelineHandler w r).1 =
        [Ev.projectLoad none, Ev.readBody none, Ev.ParsePipeline (some e)]) ∨
    (∃ proj data payload e, w.projectLoad r.key = .ok proj ∧ w.readAll r = .ok data ∧
      w.ParsePipeline r.format data = .ok payload ∧ w.begin = some e ∧
      (importPipelineHandler w r).1 =
        [Ev.projectLoad none, Ev.readBody none, Ev.ParsePipeline none, Ev.Begin (some e)]) ∨
    (∃ proj data payload e, w.projectLoad r.key = .ok proj ∧ w.readAll r = .ok data ∧
      w.ParsePipeline r.format data = .ok payload ∧ w.begin = none ∧
      (w.ParseAndImport proj payload ⟨r.force, []⟩).2.2 = some e ∧
      (importPipelineHandler w r).1 =
        [Ev.projectLoad none, Ev.readBody none, Ev.ParsePipeline none, Ev.Begin none,
          Ev.ParseAndImport ⟨r.force, []⟩ (some e), Ev.Rollback]) ∨
    (∃ proj data payload e body st, w.projectLoad r.key = .ok proj ∧ w.readAll r = .ok data ∧
      w.ParsePipeline r.format data = .ok payload ∧ w.begin = none ∧
      (w.ParseAndImport proj payload ⟨r.force, []⟩).2.2 = some e ∧
      (importPipelineHandler w r).1 =
        [Ev.projectLoad none, Ev.readBody none, Ev.ParsePipeline none, Ev.Begin none,
          Ev.ParseAndImport ⟨r.force, []⟩ (some e), Ev.WriteJSON body st, Ev.Rollback]) ∨
    (∃ proj data payload e, w.projectLoad r.key = .ok proj ∧ w.readAll r = .ok data ∧
      w.ParsePipeline r.format data = .ok payload ∧ w.begin = none ∧
      (w.ParseAndImport proj payload ⟨r.force, []⟩).2.2 = none ∧ w.commit = some e ∧
      (importPipelineHandler w r).1 =
        [Ev.projectLoad none, Ev.readBody none, Ev.ParsePipeline none, Ev.Begin none,
          Ev.ParseAndImport ⟨r.force, []⟩ none, Ev.Commit (some e), Ev.Rollback]) ∨
    (∃ proj data payload, w.projectLoad r.key = .ok proj ∧ w.readAll r = .ok data ∧
      w.ParsePipeline r.format data = .ok payload ∧ w.begin = none ∧
      (w.ParseAndImport proj payload ⟨r.force, []⟩).2.2 = none ∧ w.commit = none ∧
      (importPipelineHandler w r).1 =
        [Ev.projectLoad none, Ev.readBody none, Ev.ParsePipeline none, Ev.Begin none,
          Ev.ParseAndImport ⟨r.force, []⟩ none, Ev.Commit none,
          Ev.PublishPipelineAdd proj.Key (w.ParseAndImport proj payload ⟨r.force, []⟩).1,
          Ev.WriteJSON (w.translate r (w.ParseAndImport proj payload ⟨r.force, []⟩).2.1)
            StatusOK,
          Ev.Rollback]) := by
  rcases h1 : w.projectLoad r.key with e | proj
  · refine Or.inl ⟨e, rfl, ?_⟩
    unfold importPipelineHandler
    simp only [h1]
  rcases h2 : w.readAll r with e | data
  · refine Or.inr (Or.inl ⟨proj, e, rfl, rfl, ?_⟩)
    unfold importPipelineHandler
    simp only [h1, h2]
  rcases h3 : w.ParsePipeline r.format data with e | payload
  · refine Or.inr (Or.inr (Or.inl ⟨proj, data, e, rfl, rfl, h3, ?_⟩))
    unfold importPipelineHandler
    simp only [h1, h2, h3]
  rcases h4 : w.begin with _ | e
  swap
  · refine Or.inr (Or.inr (Or.inr (Or.inl ⟨proj, data, payload, e, rfl, rfl, h3, rfl, ?_⟩)))
    unfold importPipelineHandler
    simp only [h1, h2, h3, h4]
  rcases h5 : (w.ParseAndImport proj payload ⟨r.force, []⟩).2.2 with _ | e
  swap
  · by_cases hu : w.ErrorIsUnknown (ApiError.wrap e "Unable to import pipeline".toList) = true
    · refine Or.inr (Or.inr (Or.inr (Or.inr (Or.inl
        ⟨proj, data, payload, e, rfl, rfl, h3, rfl, h5, ?_⟩))))
      unfold importPipelineHandler
      simp only [h1, h2, h3, h4, h5, if_pos hu]
      rfl
    · refine Or.inr (Or.inr (Or.inr (Or.inr (Or.inr (Or.inl
        ⟨proj, data, payload, e,
          w.translate r (w.ParseAndImport proj payload ⟨r.force, []⟩).2.1 ++
            [(w.ExtractHTTPError (ApiError.wrap e "Unable to import pipeline".toList)
              r.acceptLanguage).Message],
          (w.ExtractHTTPError (ApiError.wrap e "Unable to import pipeline".toList)
            r.acceptLanguage).Status, rfl, rfl, h3, rfl, h5, ?_⟩)))))
      unfold importPipelineHandler
      simp only [h1, h2, h3, h4, h5, if_neg hu]
      rfl
  rcases h6 : w.commit with _ | e
  swap
  · refine Or.inr (Or.inr (Or.inr (Or.inr (Or.inr (Or.inr (Or.inl
      ⟨proj, data, payload, e, rfl, rfl, h3, rfl, h5, rfl, ?_⟩))))))
    unfold importPipelineHandler
    simp only [h1, h2, h3, h4, h5, h6]
    rfl
  · refine Or.inr (Or.inr (Or.inr (Or.inr (Or.inr (Or.inr (Or.inr
      ⟨proj, data, payload, rfl, rfl, h3, rfl, h5, rfl, ?_⟩))))))
    unfold importPipelineHandler
    simp only [h1, h2, h3, h4, h5, h6]
    rfl

theorem importPipelineHandler_count_world (w : World) (r : Request) :
    ((importPipelineHandler w r).1.countP Ev.isPublish = 1 ↔
      ∃ proj data payload, w.projectLoad r.key = .ok proj ∧ w.readAll r = .ok data ∧
        w.ParsePipeline r.format data = .ok payload ∧ w.begin = none ∧
        (w.ParseAndImport proj payload ⟨r.force, []⟩).2.2 = none ∧ w.commit = none) := by
  rcases importPipelineHandler_run w r with ⟨e, h1, h⟩ | ⟨proj, e, h1, h2, h⟩ |
    ⟨proj, data, e, h1, h2, h3, h⟩ | ⟨proj, data, payload, e, h1, h2, h3, h4, h⟩ |
    ⟨proj, data, payload, e, h1, h2, h3, h4, h5, h⟩ |
    ⟨proj, data, payload, e, body, st, h1, h2, h3, h4, h5, h⟩ |
    ⟨proj, data, payload, e, h1, h2, h3, h4, h5, h6, h⟩ |
    ⟨proj, data, payload, h1, h2, h3, h4, h5, h6, h⟩
  all_goals
    rw [h]
    simp [List.countP_cons, Ev.isPublish, h1]
  · simp [h2]
  · simp [h2, h3]
  · simp [h2, h3, h4]
  · simp [h2, h3, h4, h5]
  · simp [h2, h3, h4, h5]
  · simp [h2, h3, h4, h5, h6]
  · simp [h2, h3, h4, h5, h6]

theorem importPipelineHandler_success_trace (w : World) (r : Request) (proj : Project)
    (data : Bytes) (payload : Nat)
    (h1 : w.projectLoad r.key = .ok proj) (h2 : w.readAll r = .ok data)
    (h3 : w.ParsePipeline r.format data = .ok payload) (h4 : w.begin = none)
    (h5 : (w.ParseAndImport proj payload ⟨r.force, []⟩).2.2 = none) (h6 : w.commit = none) :
    (importPipelineHandler w r).1 =
      [Ev.projectLoad none, Ev.readBody none, Ev.ParsePipeline none, Ev.Begin none,
        Ev.ParseAndImport ⟨r.force, []⟩ none, Ev.Commit none,
        Ev.PublishPipelineAdd proj.Key (w.ParseAndImport proj payload ⟨r.force, []⟩).1,
        Ev.WriteJSON (w.translate r (w.ParseAndImport proj payload ⟨r.force, []⟩).2.1)
          StatusOK,
        Ev.Rollback] := by
  unfold importPipelineHandler
  simp only [h1, h2, h3, h4, h5, h6]
  rfl

theorem importPipelineHandler_failure_world (w : World) (r : Request)
    (hf : ¬ ∃ proj data payload, w.projectLoad r.key = .ok proj ∧ w.readAll r = .ok data ∧
        w.ParsePipeline r.format data = .ok payload ∧ w.begin = none ∧
        (w.ParseAndImport proj payload ⟨r.force, []⟩).2.2 = none ∧ w.commit = none) :
    Ev.Commit none ∉ (importPipelineHandler w r).1 ∧
    (importPipelineHandler w r).1.countP Ev.isPublish = 0 := by
  rcases importPipelineHandler_run w r with ⟨e, h1, h⟩ | ⟨proj, e, h1, h2, h⟩ |
    ⟨proj, data, e, h1, h2, h3, h⟩ | ⟨proj, data, payload, e, h1, h2, h3, h4, h⟩ |
    ⟨proj, data, payload, e, h1, h2, h3, h4, h5, h⟩ |
    ⟨proj, data, payload, e, body, st, h1, h2, h3, h4, h5, h⟩ |
    ⟨proj, data, payload, e, h1, h2, h3, h4, h5, h6, h⟩ |
    ⟨proj, data, payload, h1, h2, h3, h4, h5, h6, h⟩
  · rw [h]
    simp [List.countP_cons, Ev.isPublish]
  · rw [h]
    simp [List.countP_cons, Ev.isPublish]
  · rw [h]
    simp [List.countP_cons, Ev.isPublish]
  · rw [h]
    simp [List.countP_cons, Ev.isPublish]
  · rw [h]
    simp [List.countP_cons, Ev.isPublish]
  · rw [h]
    simp [List.countP_cons, Ev.isPublish]
  · rw [h]
    simp [List.countP_cons, Ev.isPublish]
  · exact absurd ⟨proj, data, payload, h1, h2, h3, h4, h5, h6⟩ hf

theorem importPipelineHandler_ParseAndImport_mem (w : World) (r : Request)
    (o : ImportOptions) (e : Option ApiError) :
    Ev.ParseAndImport o e ∈ (importPipelineHandler w r).1 ↔
      o = ⟨r.force, []⟩ ∧
      ∃ proj data payload, w.projectLoad r.key = .ok proj ∧ w.readAll r = .ok data ∧
        w.ParsePipeline r.format data = .ok payload ∧ w.begin = none ∧
        (w.ParseAndImport proj payload ⟨r.force, []⟩).2.2 = e := by
  rcases importPipelineHandler_run w r with ⟨e1, h1, h⟩ | ⟨proj, e1, h1, h2, h⟩ |
    ⟨proj, data, e1, h1, h2, h3, h⟩ | ⟨proj, data, payload, e1, h1, h2, h3, h4, h⟩ |
    ⟨proj, data, payload, e1, h1, h2, h3, h4, h5, h⟩ |
    ⟨proj, data, payload, e1, body, st, h1, h2, h3, h4, h5, h⟩ |
    ⟨proj, data, payload, e1, h1, h2, h3, h4, h5, h6, h⟩ |
    ⟨proj, data, payload, h1, h2, h3, h4, h5, h6, h⟩
  all_goals
    rw [h]
    simp [h1]
  · simp [h2]
  · simp [h2, h3]
  · simp [h2, h3, h4]
  all_goals
    simp only [h2, h3, h4, h5, Except.ok.injEq, exists_eq_left', true_and]
    intro _
    exact eq_comm

theorem importPipelineHandler_Commit_mem (w : World) (r : Request) (e : Option ApiError) :
    Ev.Commit e ∈ (importPipelineHandler w r).1 ↔
      w.commit = e ∧
      ∃ proj data payload, w.projectLoad r.key = .ok proj ∧ w.readAll r = .ok data ∧
        w.ParsePipeline r.format data = .ok payload ∧ w.begin = none ∧
        (w.ParseAndImport proj payload ⟨r.force, []⟩).2.2 = none := by
  rcases importPipelineHandler_run w r with ⟨e1, h1, h⟩ | ⟨proj, e1, h1, h2, h⟩ |
    ⟨proj, data, e1, h1, h2, h3, h⟩ | ⟨proj, data, payload, e1, h1, h2, h3, h4, h⟩ |
    ⟨proj, data, payload, e1, h1, h2, h3, h4, h5, h⟩ |
    ⟨proj, data, payload, e1, body, st, h1, h2, h3, h4, h5, h⟩ |
    ⟨proj, data, payload, e1, h1, h2, h3, h4, h5, h6, h⟩ |
    ⟨proj, data, payload, h1, h2, h3, h4, h5, h6, h⟩
  all_goals
    rw [h]
    simp [h1]
  · simp [h2]
  · simp [h2, h3]
  · simp [h2, h3, h4]
  · simp [h2, h3, h4, h5]
  · simp [h2, h3, h4, h5]
  · simp only [h2, h3, h4, h5, h6, Except.ok.injEq, exists_eq_left', and_true]
    exact eq_comm
  · simp only [h2, h3, h4, h5, h6, Except.ok.injEq, exists_eq_left', and_true]
    exact eq_comm

/-- C3: in every run of importPipelineHandler, seen as the trace of its calls.
Tied to what the collaborators return: exactly one PipelineAdd event is
published if and only if project load, body read, ParsePipeline, Begin,
ParseAndImport and Commit all return no error, and in that case the trace is the
six calls in this order followed by the event, the response and the deferred
Rollback; when one of the six steps returns an error, no Commit succeeds and no
event is published; ParseAndImport and Commit appear in the trace exactly when
they are reached, with what the collaborator returned.  Within the trace: an
event is published if and only if ParseAndImport returned no error and Commit
returned no error, at most once and exactly once in that case; a successful
Commit stands before it; and a failed step in the trace excludes a successful
Commit and any event. -/
theorem importPipelineHandler_publish (w : World) (r : Request) :
    ((importPipelineHandler w r).1.countP Ev.isPublish = 1 ↔
      ∃ proj data payload, w.projectLoad r.key = .ok proj ∧ w.readAll r = .ok data ∧
        w.ParsePipeline r.format data = .ok payload ∧ w.begin = none ∧
        (w.ParseAndImport proj payload ⟨r.force, []⟩).2.2 = none ∧ w.commit = none) ∧
    (∀ proj data payload, w.projectLoad r.key = .ok proj → w.readAll r = .ok data →
        w.ParsePipeline r.format data = .ok payload → w.begin = none →
        (w.ParseAndImport proj payload ⟨r.force, []⟩).2.2 = none → w.commit = none →
      (importPipelineHandler w r).1 =
        [Ev.projectLoad none, Ev.readBody none, Ev.ParsePipeline none, Ev.Begin none,
          Ev.ParseAndImport ⟨r.force, []⟩ none, Ev.Commit none,
          Ev.PublishPipelineAdd proj.Key (w.ParseAndImport proj payload ⟨r.force, []⟩).1,
          Ev.WriteJSON (w.translate r (w.ParseAndImport proj payload ⟨r.force, []⟩).2.1)
            StatusOK,
          Ev.Rollback]) ∧
    ((¬ ∃ proj data payload, w.projectLoad r.key = .ok proj ∧ w.readAll r = .ok data ∧
        w.ParsePipeline r.format data = .ok payload ∧ w.begin = none ∧
        (w.ParseAndImport proj payload ⟨r.force, []⟩).2.2 = none ∧ w.commit = none) →
      Ev.Commit none ∉ (importPipelineHandler w r).1 ∧
      (importPipelineHandler w r).1.countP Ev.isPublish = 0) ∧
    (∀ (o : ImportOptions) (e : Option ApiError),
      Ev.ParseAndImport o e ∈ (importPipelineHandler w r).1 ↔
        o = ⟨r.force, []⟩ ∧
        ∃ proj data payload, w.projectLoad r.key = .ok proj ∧ w.readAll r = .ok data ∧
          w.ParsePipeline r.format data = .ok payload ∧ w.begin = none ∧
          (w.ParseAndImport proj payload ⟨r.force, []⟩).2.2 = e) ∧
    (∀ e : Option ApiError,
      Ev.Commit e ∈ (importPipelineHandler w r).1 ↔
        w.commit = e ∧
        ∃ proj data payload, w.projectLoad r.key = .ok proj ∧ w.readAll r = .ok data ∧
          w.ParsePipeline r.format data = .ok payload ∧ w.begin = none ∧
          (w.ParseAndImport proj payload ⟨r.force, []⟩).2.2 = none) ∧
    ((∃ e ∈ (importPipelineHandler w r).1, e.isPublish = true) ↔
      ((∃ o, Ev.ParseAndImport o none ∈ (importPipelineHandler w r).1) ∧
        Ev.Commit none ∈ (importPipelineHandler w r).1)) ∧
    (importPipelineHandler w r).1.countP Ev.isPublish ≤ 1 ∧
    ((importPipelineHandler w r).1.countP Ev.isPublish = 1 ↔
      ((∃ o, Ev.ParseAndImport o none ∈ (importPipelineHandler w r).1) ∧
        Ev.Commit none ∈ (importPipelineHandler w r).1)) ∧
    (∀ (a b : List Ev) (k : GoString) (p : Nat),
      (importPipelineHandler w r).1 = a ++ Ev.PublishPipelineAdd k p :: b →
        Ev.Commit none ∈ a) ∧
    ((∃ e ∈ (importPipelineHandler w r).1, e.isFailure = true) →
      Ev.Commit none ∉ (importPipelineHandler w r).1 ∧
      (importPipelineHandler w r).1.countP Ev.isPublish = 0) :=
  ⟨importPipelineHandler_count_world w r,
    fun proj data payload h1 h2 h3 h4 h5 h6 =>
      importPipelineHandler_success_trace w r proj data payload h1 h2 h3 h4 h5 h6,
    importPipelineHandler_failure_world w r,
    importPipelineHandler_ParseAndImport_mem w r,
    importPipelineHandler_Commit_mem w r,
    importPipelineHandler_trace_facts w r⟩

/-- C3 at two sample runs.  When every step succeeds, exactly one event is
published and the trace is the six calls, the event, the response and Rollback.
When Commit fails, no event is published. -/
theorem importPipelineHandler_publish_witness :
    (importPipelineHandler (sampleWorld none none false) sampleRequest).1.countP
      Ev.isPublish = 1 ∧
    (importPipelineHandler (sampleWorld none none false) sampleRequest).1 =
      [Ev.projectLoad none, Ev.readBody none, Ev.ParsePipeline none, Ev.Begin none,
        Ev.ParseAndImport ⟨false, []⟩ none, Ev.Commit none,
        Ev.PublishPipelineAdd "P".toList 4,
        Ev.WriteJSON ["msg".toList, "msg".toList] 200,
        Ev.Rollback] ∧
    Ev.Commit none ∉ (importPipelineHandler (sampleWorld none (some (ApiError.raw 5)) false)
      sampleRequest).1 ∧
    (importPipelineHandler (sampleWorld none (some (ApiError.raw 5)) false)
      sampleRequest).1.countP Ev.isPublish = 0 :=
  ⟨(importPipelineHandler_publish (sampleWorld none none false) sampleRequest).1.mpr
      ⟨⟨"P".toList, 1⟩, [1, 2], 3, rfl, rfl, rfl, rfl, rfl, rfl⟩,
    (importPipelineHandler_publish (sampleWorld none none false) sampleRequest).2.1
      ⟨"P".toList, 1⟩ [1, 2] 3 rfl rfl rfl rfl rfl rfl,
    (importPipelineHandler_publish (sampleWorld none (some (ApiError.raw 5)) false)
      sampleRequest).2.2.2.2.2.2.2.2.2 ⟨Ev.Commit (some (ApiError.raw 5)), by decide, rfl⟩⟩

/-- C4: when ParseAndImport returns an error together with a message list, the
error is first wrapped.  If the wrapped error is unknown, importPipelineHandler
returns it and writes no response.  Otherwise it writes one JSON response, whose
status is the status of the extracted user error and whose body is the
localized message list followed by the message of the user error (one element
more than the localized list, never empty), and returns what WriteJSON returns.
In both cases Commit is not called, no event is published and the deferred
Rollback is the last call. -/
theorem importPipelineHandler_import_error (w : World) (r : Request) (proj : Project)
    (data : Bytes) (payload pip : Nat) (msgs : List Nat) (e : ApiError)
    (hl : w.projectLoad r.key = .ok proj) (hr : w.readAll r = .ok data)
    (hp : w.ParsePipeline r.format data = .ok payload) (hb : w.begin = none)
    (hi : w.ParseAndImport proj payload ⟨r.force, []⟩ = (pip, msgs, some e)) :
    (w.ErrorIsUnknown (ApiError.wrap e "Unable to import pipeline".toList) = true →
      (importPipelineHandler w r).2 =
        some (ApiError.wrap e "Unable to import pipeline".toList) ∧
      (importPipelineHandler w r).1.filter Ev.isWriteJSON = []) ∧
    (w.ErrorIsUnknown (ApiError.wrap e "Unable to import pipeline".toList) = false →
      (importPipelineHandler w r).1.filter Ev.isWriteJSON =
        [Ev.WriteJSON
          (w.translate r msgs ++
            [(w.ExtractHTTPError (ApiError.wrap e "Unable to import pipeline".toList)
              r.acceptLanguage).Message])
          (w.ExtractHTTPError (ApiError.wrap e "Unable to import pipeline".toList)
            r.acceptLanguage).Status] ∧
      (importPipelineHandler w r).2 =
        w.WriteJSON
          (w.translate r msgs ++
            [(w.ExtractHTTPError (ApiError.wrap e "Unable to import pipeline".toList)
              r.acceptLanguage).Message])
          (w.ExtractHTTPError (ApiError.wrap e "Unable to import pipeline".toList)
            r.acceptLanguage).Status) ∧
    (w.translate r msgs ++
      [(w.ExtractHTTPError (ApiError.wrap e "Unable to import pipeline".toList)
        r.acceptLanguage).Message]).length = (w.translate r msgs).length + 1 ∧
    (w.translate r msgs ++
      [(w.ExtractHTTPError (ApiError.wrap e "Unable to import pipeline".toList)
        r.acceptLanguage).Message]) ≠ [] ∧
    (importPipelineHandler w r).1.filter Ev.isCommit = [] ∧
    (importPipelineHandler w r).1.filter Ev.isPublish = [] ∧
    (importPipelineHandler w r).1.getLast? = some Ev.Rollback := by
  have hi1 : (w.ParseAndImport proj payload ⟨r.force, []⟩).2.1 = msgs := by rw [hi]
  have hi2 : (w.ParseAndImport proj payload ⟨r.force, []⟩).2.2 = some e := by rw [hi]
  unfold importPipelineHandler
  simp only [hl, hr, hp, hb, hi1, hi2]
  generalize ApiError.wrap e "Unable to import pipeline".toList = g
  by_cases hu : w.ErrorIsUnknown g = true
  · simp [hu, List.filter_cons, Ev.isWriteJSON, Ev.isCommit, Ev.isPublish]
  · simp [hu, List.filter_cons, Ev.isWriteJSON, Ev.isCommit, Ev.isPublish]

/-- C4 at a sample run in which ParseAndImport returns a classified error with
two messages: the response has status 400 and three elements, the last one the
message of the user error. -/
theorem importPipelineHandler_import_error_witness :
    (importPipelineHandler (sampleWorld (some (ApiError.raw 6)) none false)
      sampleRequest).1.filter Ev.isWriteJSON =
      [Ev.WriteJSON ["msg".toList, "msg".toList, "invalid pipeline".toList] 400] :=
  ((importPipelineHandler_import_error (sampleWorld (some (ApiError.raw 6)) none false)
    sampleRequest ⟨"P".toList, 1⟩ [1, 2] 3 4 [10, 11] (ApiError.raw 6)
    rfl rfl rfl rfl rfl).2.1 rfl).1

/-- C5: when ParseAndImport returns an error, putImportPipelineHandler returns
that error wrapped as InvalidPipeline, writes no JSON response, does not call
Commit, publishes no event, and ends with the deferred Rollback; what the world
says about the classification of errors has no part in the outcome. -/
theorem putImportPipelineHandler_import_error (w : World) (r : Request) (proj : Project)
    (data : Bytes) (payload pip : Nat) (msgs : List Nat) (e : ApiError)
    (hl : w.projectLoad r.key = .ok proj) (hr : w.readAll r = .ok data)
    (hp : w.ParsePipeline r.format data = .ok payload) (hb : w.begin = none)
    (hi : w.ParseAndImport proj payload ⟨true, r.pipelineKey⟩ = (pip, msgs, some e)) :
    (putImportPipelineHandler w r).2 =
      some (ApiError.newErrorWithStack e Kind.ErrInvalidPipeline
        "unable to parse and import pipeline".toList) ∧
    (putImportPipelineHandler w r).1.filter Ev.isWriteJSON = [] ∧
    (putImportPipelineHandler w r).1.filter Ev.isCommit = [] ∧
    (putImportPipelineHandler w r).1.filter Ev.isPublish = [] ∧
    (putImportPipelineHandler w r).1.getLast? = some Ev.Rollback ∧
    (∀ (isUnknown : ApiError → Bool) (extract : ApiError → GoString → HTTPError),
      putImportPipelineHandler
          { w with ErrorIsUnknown := isUnknown, ExtractHTTPError := extract } r =
        putImportPipelineHandler w r) := by
  have hi2 : (w.ParseAndImport proj payload ⟨true, r.pipelineKey⟩).2.2 = some e := by rw [hi]
  refine ⟨?_, ?_, ?_, ?_, ?_, fun _ _ => rfl⟩
  all_goals
    unfold putImportPipelineHandler
    simp [hl, hr, hp, hb, hi2, List.filter_cons, Ev.isWriteJSON, Ev.isCommit, Ev.isPublish]

/-- C5 at two sample runs in which ParseAndImport returns the same error, once
classified as unknown and once as a user error: the handler returns the same
InvalidPipeline error. -/
theorem putImportPipelineHandler_import_error_witness :
    (putImportPipelineHandler (sampleWorld (some (ApiError.raw 6)) none true)
      sampleRequest).2 =
      some (ApiError.newErrorWithStack (ApiError.raw 6) Kind.ErrInvalidPipeline
        "unable to parse and import pipeline".toList) ∧
    (putImportPipelineHandler (sampleWorld (some (ApiError.raw 6)) none false)
      sampleRequest).2 =
      some (ApiError.newErrorWithStack (ApiError.raw 6) Kind.ErrInvalidPipeline
        "unable to parse and import pipeline".toList) :=
  ⟨(putImportPipelineHandler_import_error (sampleWorld (some (ApiError.raw 6)) none true)
      sampleRequest ⟨"P".toList, 1⟩ [1, 2] 3 4 [10, 11] (ApiError.raw 6)
      rfl rfl rfl rfl rfl).1,
    by decide⟩

end Api
